import Mathlib

/-!
Shallow embedding of the graceful-shutdown coordinator in
`src/graceful/graceful.go` (package `graceful`).

Modelling conventions:
- Machine times are Go `time.Duration` values, i.e. nanosecond counts,
  embedded as `Nat` (the program only ever uses non-negative durations).
- External collaborators (the TCP stack reached through `net.Listen`, the
  `http.Server` reached through `Serve`, `Shutdown` and `Close`, and the
  OS signal stream) are supplied by an `Env` record of oracles, so each
  method of the coordinator becomes a pure function of the environment
  and the coordinator state.
- Logging through the `logrus.Entry` sink is embedded as a list of
  structured entries; the sink itself is an opaque handle (`Nat`) held in
  a coordinator field, which logging never replaces.
- Fallible calls return `Option GoError` (`none` = Go `nil` error), and
  `net.Listen` returns `Except GoError Listener`.
-/

namespace Graceful

/-- Go error values that appear in the program: the `context.DeadlineExceeded`
sentinel, the `http.ErrServerClosed` sentinel, transport-level errors such as
`net.OpError`, and values built with `errors.New`. -/
inductive GoError : Type
  | deadlineExceeded
  | errServerClosed
  | opError (msg : String)
  | errorsNew (msg : String)
deriving DecidableEq, Repr

/-- A `net.Listener` as the coordinator observes it: its resolved local
address, as produced by `l.Addr().String()`. -/
structure Listener : Type where
  addr : String
deriving DecidableEq, Repr

/-- The `http.Server` value built by the constructor: it only carries the
opaque handler handle (`&http.Server{Handler: handler}`). -/
structure HttpServer : Type where
  Handler : Nat
deriving DecidableEq, Repr

/-- The `GracefulServer` struct of `graceful.go`: server handle, nullable
listener, opaque logging-sink handle, public `URL` string and the
`ShutdownTimeout` duration (nanoseconds). -/
structure GracefulServer : Type where
  server : HttpServer
  listener : Option Listener
  log : Nat
  URL : String
  ShutdownTimeout : Nat
deriving DecidableEq, Repr

/-- The signals the watcher subscribes to: `os.Interrupt`, `syscall.SIGTERM`,
`syscall.SIGINT`. -/
inductive Sig : Type
  | interrupt
  | sigterm
  | sigint
deriving DecidableEq, Repr

/-- Structured log entries standing for the four log calls of the source:
the info line naming the received signal, the info line of `Close` naming the
timeout, the forcing warning of the watcher, and the final shutdown-error
warning. -/
inductive LogEntry : Type
  | infoSignal (sig : Sig)
  | infoClosing (timeout : Nat)
  | warnForcing (err : GoError) (timeout : Nat)
  | warnShutdownError (err : GoError)
deriving DecidableEq, Repr

/-- True exactly on the info entry that `Close` emits, so occurrences of it
count invocations of `Close`. -/
def LogEntry.isClosing : LogEntry → Bool
  | .infoClosing _ => true
  | _ => false

/-- Transport-level operations a coordinator method can perform, recorded as
a trace: a `net.Listen` call, or a `Close` on a listener (never emitted by
this program, which lets theorems state that a listener is left untouched). -/
inductive NetEvent : Type
  | netListenCall (addr : String)
  | listenerClose (l : Listener)
deriving DecidableEq, Repr

/-- Outcome of entering the serve loop: either the call returns a Go error
value, or it panics (a Go runtime fault, not an error return). -/
inductive ListenOutcome : Type
  | panicked
  | returned (e : GoError)
deriving DecidableEq, Repr

/-- True when the serve loop returned an error value rather than panicking. -/
def ListenOutcome.isReturned : ListenOutcome → Bool
  | .panicked => false
  | .returned _ => true

/-- The external world: the TCP stack answering `net.Listen`, the drain
behaviour of the wrapped `http.Server` (the instant, measured from the
`Close` call, at which all in-flight work completes, `none` meaning never),
the error from closing the underlying listeners during `Shutdown`, the
result of the hard `server.Close()`, and the terminal error of the serve
loop for a live listener. -/
structure Env : Type where
  netListen : String → Except GoError Listener
  drainTime : Option Nat
  transportCloseErr : Option GoError
  hardCloseErr : Option GoError
  serveErr : Listener → GoError

/-- Go `DefaultShutdownTimeout = time.Second * 60`, in nanoseconds. -/
def DefaultShutdownTimeout : Nat := 60 * 1000000000

/-- Go `NewGracefulServer(handler, log)`: wraps the handler in a fresh
`http.Server`, stores the logging sink, leaves the listener unset (and the
`URL` at its zero value), and initializes `ShutdownTimeout` to the default. -/
def NewGracefulServer (handler : Nat) (log : Nat) : GracefulServer :=
  { server := { Handler := handler }
  , log := log
  , listener := none
  , URL := ""
  , ShutdownTimeout := DefaultShutdownTimeout }

/-- `http.Server.Shutdown` under a `context.WithTimeout` deadline, modelled
by its documented contract: if the deadline elapses before all in-flight
connections drain, it returns the context error (`context.DeadlineExceeded`);
otherwise it returns whatever error arose from closing the underlying
listeners (`nil` on success). -/
def httpShutdown (drainTime : Option Nat) (closeErr : Option GoError)
    (timeout : Nat) : Option GoError :=
  match drainTime with
  | none => some GoError.deadlineExceeded
  | some t => if t ≤ timeout then closeErr else some GoError.deadlineExceeded

/-- True when the in-flight work drains no later than the deadline. -/
def drainedInTime : Option Nat → Nat → Bool
  | none, _ => false
  | some t, timeout => t ≤ timeout

/-- Go `(svr *GracefulServer) Close()`: builds a context whose deadline is
now plus `svr.ShutdownTimeout`, logs the intent naming that timeout, and
returns `svr.server.Shutdown(ctx)`. The method assigns to no field of the
receiver, so the state comes back unchanged. -/
def Close (env : Env) (svr : GracefulServer) :
    Option GoError × GracefulServer × List LogEntry :=
  ( httpShutdown env.drainTime env.transportCloseErr svr.ShutdownTimeout
  , svr
  , [LogEntry.infoClosing svr.ShutdownTimeout] )

/-- Result of one run of the signal-watch body: the coordinator state it
leaves behind, the log entries it emitted, and whether it escalated to the
hard `server.Close()`. -/
structure WatchOut : Type where
  state : GracefulServer
  logs : List LogEntry
  forced : Bool
deriving DecidableEq, Repr

/-- The straight-line body of `listenForShutdownSignal` once a signal has
arrived: log the signal, call `Close`; if the result is the
`context.DeadlineExceeded` sentinel, warn naming the configured timeout and
replace the error with the result of the hard `svr.server.Close()`; finally,
warn if the remaining error is non-nil. -/
def watchBody (env : Env) (svr : GracefulServer) (sig : Sig) : WatchOut :=
  let c := Close env svr
  let shutErr := c.1
  let svr1 := c.2.1
  let closeLogs := c.2.2
  if shutErr = some GoError.deadlineExceeded then
    let forcedErr := env.hardCloseErr
    { state := svr1
    , logs := LogEntry.infoSignal sig :: closeLogs
        ++ [LogEntry.warnForcing GoError.deadlineExceeded svr.ShutdownTimeout]
        ++ (match forcedErr with
            | some e => [LogEntry.warnShutdownError e]
            | none => [])
    , forced := true }
  else
    { state := svr1
    , logs := LogEntry.infoSignal sig :: closeLogs
        ++ (match shutErr with
            | some e => [LogEntry.warnShutdownError e]
            | none => [])
    , forced := false }

/-- Go `listenForShutdownSignal`: subscribe to the three signals with a
buffered channel, block on one receive, then run the straight-line shutdown
body once and return. The pending signal stream is passed explicitly: an
empty stream leaves the task blocked forever (`none`); otherwise exactly the
head is consumed, the rest is returned unread, and the task terminates. -/
def listenForShutdownSignal (env : Env) (svr : GracefulServer) :
    List Sig → Option (WatchOut × List Sig)
  | [] => none
  | sig :: rest => some (watchBody env svr sig, rest)

/-- `net/http Server.Serve`, modelled by its behaviour as seen from this
program: called with a nil listener it dereferences the nil interface on the
first `Accept` and panics; called with a live listener it blocks and
eventually returns the non-nil terminal error supplied by the environment. -/
def serverServe (env : Env) (lopt : Option Listener) : ListenOutcome :=
  match lopt with
  | none => ListenOutcome.panicked
  | some l => ListenOutcome.returned (env.serveErr l)

/-- Go `(svr *GracefulServer) Listen()`: spawn the signal watcher (its
effects are modelled separately by `listenForShutdownSignal`) and enter
`svr.server.Serve(svr.listener)` unconditionally — there is no check that a
listener is bound. -/
def Listen (env : Env) (svr : GracefulServer) : ListenOutcome :=
  serverServe env svr.listener

/-- Go `(svr *GracefulServer) Bind(addr)`: call `net.Listen("tcp", addr)`;
on failure return the error with the receiver untouched; on success set
`URL` to `"http://"` plus the resolved listener address, store the listener
and return nil. The trace records the transport operations performed: one
`net.Listen` call and nothing else (in particular, no listener close). -/
def Bind (env : Env) (svr : GracefulServer) (addr : String) :
    Option GoError × GracefulServer × List NetEvent :=
  match env.netListen addr with
  | Except.error err => (some err, svr, [NetEvent.netListenCall addr])
  | Except.ok l =>
      ( none
      , { svr with URL := "http://" ++ l.addr, listener := some l }
      , [NetEvent.netListenCall addr] )

/-- The value `errors.New` builds in `ListenAndServe` when a listener
already exists. -/
def alreadyBoundError : GoError :=
  GoError.errorsNew "The listener has already started, don\x27t call Bind first"

/-- Go `(svr *GracefulServer) ListenAndServe(addr)`: if a listener is
already set, return the already-bound error immediately (no field written,
no transport operation); otherwise run `Bind` and, on its success, `Listen`. -/
def ListenAndServe (env : Env) (svr : GracefulServer) (addr : String) :
    ListenOutcome × GracefulServer × List NetEvent :=
  if svr.listener.isSome then
    (ListenOutcome.returned alreadyBoundError, svr, [])
  else
    match Bind env svr addr with
    | (some err, svr1, tr) => (ListenOutcome.returned err, svr1, tr)
    | (none, svr1, tr) => (Listen env svr1, svr1, tr)

/-- A concrete environment in which every bind succeeds with the requested
address as the resolved one, the drain completes immediately and no
transport operation fails. -/
def envOk : Env :=
  { netListen := fun a => Except.ok { addr := a }
  , drainTime := some 0
  , transportCloseErr := none
  , hardCloseErr := none
  , serveErr := fun _ => GoError.errServerClosed }

/-- A concrete environment in which every bind fails with an address-in-use
transport error. -/
def envBindFail : Env :=
  { netListen := fun _ => Except.error (GoError.opError "address already in use")
  , drainTime := some 0
  , transportCloseErr := none
  , hardCloseErr := none
  , serveErr := fun _ => GoError.errServerClosed }

/-- A concrete environment in which the drain completes at once but closing
the underlying listeners reports a transport error, so `Close` surfaces a
non-nil error other than the deadline sentinel. -/
def envOtherErr : Env :=
  { netListen := fun a => Except.ok { addr := a }
  , drainTime := some 0
  , transportCloseErr := some (GoError.opError "use of closed network connection")
  , hardCloseErr := none
  , serveErr := fun _ => GoError.errServerClosed }

/-- A freshly constructed coordinator over arbitrary concrete handles. -/
def svr0 : GracefulServer := NewGracefulServer 0 0

/-- A coordinator that already holds a bound listener. -/
def svrBound : GracefulServer :=
  { svr0 with listener := some { addr := "127.0.0.1:8080" }
            , URL := "http://127.0.0.1:8080" }

/-- Claim C10: `Close` never mutates any coordinator field — for every
environment (hence every outcome: nil, DeadlineExceeded, or another error)
and every coordinator state, the state after the call, with its listener,
URL, ShutdownTimeout, server and logging-sink fields, equals the state
before. -/
theorem close_preserves_state (env : Env) (svr : GracefulServer) :
    (Close env svr).2.1 = svr := rfl

/-- Claim C8: construction with any handler and logging sink yields the
60-second default shutdown timeout (in nanoseconds) and an unset listener,
and the timeout is the single tunable used by `Close`: for every state and
every value the field holds at the moment of the call, the deadline
computation uses exactly that value. -/
theorem new_server_defaults (handler lg : Nat) (env : Env)
    (svr : GracefulServer) (t : Nat) :
    (NewGracefulServer handler lg).ShutdownTimeout = DefaultShutdownTimeout
    ∧ DefaultShutdownTimeout = 60 * 1000000000
    ∧ (NewGracefulServer handler lg).listener = none
    ∧ (Close env { svr with ShutdownTimeout := t }).1
        = httpShutdown env.drainTime env.transportCloseErr t :=
  ⟨rfl, rfl, rfl, rfl⟩

/-- Claim C5: when acquiring the TCP listener fails, `Bind` returns that
error and the coordinator is exactly its pre-bind state — no field is
mutated — and the only transport operation performed is the listen call. -/
theorem bind_failure_no_mutation (env : Env) (svr : GracefulServer)
    (addr : String) (e : GoError)
    (h : env.netListen addr = Except.error e) :
    Bind env svr addr = (some e, svr, [NetEvent.netListenCall addr]) := by
  unfold Bind
  rw [h]

/-- Witness for `bind_failure_no_mutation` at a concrete failing bind. -/
theorem bind_failure_no_mutation_witness :
    Bind envBindFail svr0 ":80"
      = (some (GoError.opError "address already in use"), svr0,
         [NetEvent.netListenCall ":80"]) :=
  bind_failure_no_mutation envBindFail svr0 ":80"
    (GoError.opError "address already in use") rfl

/-- Claim C6: when the TCP listen succeeds, `Bind` returns nil, stores the
acquired listener, and sets `URL` to `"http://"` concatenated with the
resolved local address of that very listener, leaving the other fields as
they were. -/
theorem bind_success_sets_url (env : Env) (svr : GracefulServer)
    (addr : String) (l : Listener)
    (h : env.netListen addr = Except.ok l) :
    (Bind env svr addr).1 = none
    ∧ (Bind env svr addr).2.1.listener = some l
    ∧ (Bind env svr addr).2.1.URL = "http://" ++ l.addr
    ∧ (Bind env svr addr).2.1.ShutdownTimeout = svr.ShutdownTimeout
    ∧ (Bind env svr addr).2.1.log = svr.log
    ∧ (Bind env svr addr).2.1.server = svr.server := by
  unfold Bind
  rw [h]
  exact ⟨rfl, rfl, rfl, rfl, rfl, rfl⟩

/-- Witness for `bind_success_sets_url` at a concrete successful bind. -/
theorem bind_success_sets_url_witness :
    (Bind envOk svr0 "127.0.0.1:9090").1 = none
    ∧ (Bind envOk svr0 "127.0.0.1:9090").2.1.listener
        = some { addr := "127.0.0.1:9090" }
    ∧ (Bind envOk svr0 "127.0.0.1:9090").2.1.URL = "http://" ++ "127.0.0.1:9090"
    ∧ (Bind envOk svr0 "127.0.0.1:9090").2.1.ShutdownTimeout
        = svr0.ShutdownTimeout
    ∧ (Bind envOk svr0 "127.0.0.1:9090").2.1.log = svr0.log
    ∧ (Bind envOk svr0 "127.0.0.1:9090").2.1.server = svr0.server :=
  bind_success_sets_url envOk svr0 "127.0.0.1:9090" { addr := "127.0.0.1:9090" }
    rfl

/-- Claim C9: `Bind` has no double-bind guard — with a listener already
set, a second successful `Bind` returns nil and overwrites the listener and
URL fields with the new values, and its transport trace is exactly the
listen call: the previously held listener is never closed. -/
theorem bind_overwrites_existing_listener (env : Env) (svr : GracefulServer)
    (addr : String) (l0 l1 : Listener)
    (h0 : svr.listener = some l0)
    (h1 : env.netListen addr = Except.ok l1) :
    (Bind env svr addr).1 = none
    ∧ (Bind env svr addr).2.1.listener = some l1
    ∧ (Bind env svr addr).2.1.URL = "http://" ++ l1.addr
    ∧ (Bind env svr addr).2.2 = [NetEvent.netListenCall addr]
    ∧ ∀ l : Listener, NetEvent.listenerClose l ∉ (Bind env svr addr).2.2 := by
  unfold Bind
  rw [h1]
  refine ⟨rfl, rfl, rfl, rfl, ?_⟩
  intro l hl
  simp at hl

/-- Witness for `bind_overwrites_existing_listener`: rebinding an
already-bound coordinator to a fresh address. -/
theorem bind_overwrites_existing_listener_witness :
    (Bind envOk svrBound "10.0.0.1:81").1 = none
    ∧ (Bind envOk svrBound "10.0.0.1:81").2.1.listener
        = some { addr := "10.0.0.1:81" }
    ∧ (Bind envOk svrBound "10.0.0.1:81").2.1.URL = "http://" ++ "10.0.0.1:81"
    ∧ (Bind envOk svrBound "10.0.0.1:81").2.2
        = [NetEvent.netListenCall "10.0.0.1:81"]
    ∧ ∀ l : Listener,
        NetEvent.listenerClose l ∉ (Bind envOk svrBound "10.0.0.1:81").2.2 :=
  bind_overwrites_existing_listener envOk svrBound "10.0.0.1:81"
    { addr := "127.0.0.1:8080" } { addr := "10.0.0.1:81" } rfl rfl

/-- Claim C3: with a listener already set, `ListenAndServe` returns the
already-bound error immediately, with the coordinator state returned
unchanged and an empty transport trace (the existing listener untouched);
with no listener set, it returns exactly what `Bind` returns on failure and
what `Listen` returns after a successful `Bind`. -/
theorem listenAndServe_alreadyBound (env : Env) (svr : GracefulServer)
    (addr : String) :
    (svr.listener.isSome = true →
      ListenAndServe env svr addr
        = (ListenOutcome.returned alreadyBoundError, svr, []))
    ∧ (svr.listener = none →
        (∀ e s tr, Bind env svr addr = (some e, s, tr) →
          ListenAndServe env svr addr = (ListenOutcome.returned e, s, tr))
        ∧ (∀ s tr, Bind env svr addr = (none, s, tr) →
          ListenAndServe env svr addr = (Listen env s, s, tr))) := by
  constructor
  · intro h
    simp [ListenAndServe, h]
  · intro h
    constructor
    · intro e s tr hb
      simp [ListenAndServe, h, hb]
    · intro s tr hb
      simp [ListenAndServe, h, hb]

/-- Witness for `listenAndServe_alreadyBound`: a second call on an
already-bound coordinator fails with the already-bound error and leaves the
state and listener untouched. -/
theorem listenAndServe_alreadyBound_witness :
    ListenAndServe envOk svrBound "10.0.0.2:82"
      = (ListenOutcome.returned alreadyBoundError, svrBound, []) :=
  (listenAndServe_alreadyBound envOk svrBound "10.0.0.2:82").1 rfl

/-- Claim C2 counterexample: on a freshly constructed coordinator (listener
unset), `Listen` does not return a `BindRequiredError` or any error value at
all — it proceeds into the serve call with the nil listener, which panics. -/
theorem listen_unbound_cex :
    Listen envOk (NewGracefulServer 0 0) = ListenOutcome.panicked
    ∧ (Listen envOk (NewGracefulServer 0 0)).isReturned = false :=
  ⟨rfl, rfl⟩

/-- Claim C2 as amended: `Listen` performs no bound-listener precondition
check and constructs no error value — on every coordinator whose listener is
unset it invokes the serve loop on the nil listener, which panics (a runtime
nil dereference) rather than returning an error. -/
theorem listen_unbound_panics (env : Env) (svr : GracefulServer)
    (h : svr.listener = none) :
    Listen env svr = ListenOutcome.panicked
    ∧ (Listen env svr).isReturned = false := by
  simp [Listen, serverServe, h, ListenOutcome.isReturned]

/-- Witness for `listen_unbound_panics` at a concrete unbound coordinator. -/
theorem listen_unbound_panics_witness :
    Listen envBindFail (NewGracefulServer 1 2) = ListenOutcome.panicked
    ∧ (Listen envBindFail (NewGracefulServer 1 2)).isReturned = false :=
  listen_unbound_panics envBindFail (NewGracefulServer 1 2) rfl

/-- Claim C4: provided transport-level close errors are distinct from the
context sentinel, the result of `Close` is exactly one of three things: the
DeadlineExceeded sentinel precisely when the deadline elapsed with work
still outstanding, nil precisely when the drain completed in time with no
transport error, and otherwise the transport error passed through
unchanged. -/
theorem close_outcome_trichotomy (env : Env) (svr : GracefulServer)
    (h : env.transportCloseErr ≠ some GoError.deadlineExceeded) :
    ((Close env svr).1 = some GoError.deadlineExceeded
      ↔ drainedInTime env.drainTime svr.ShutdownTimeout = false)
    ∧ ((Close env svr).1 = none
      ↔ (drainedInTime env.drainTime svr.ShutdownTimeout = true
          ∧ env.transportCloseErr = none))
    ∧ (drainedInTime env.drainTime svr.ShutdownTimeout = true
        → (Close env svr).1 = env.transportCloseErr) := by
  unfold Close httpShutdown drainedInTime
  rcases hd : env.drainTime with _ | t
  · simp
  · by_cases hle : t ≤ svr.ShutdownTimeout
    · simp only [hle, if_pos, decide_eq_false_iff_not, decide_eq_true_eq]
      refine ⟨?_, ?_, ?_⟩
      · simp [hle, h]
      · simp
      · intro _
        trivial
    · simp [hle]

/-- Witness for `close_outcome_trichotomy` in an environment where the
drain completes at once and the transport close fails: `Close` passes the
transport error through unchanged. -/
theorem close_outcome_trichotomy_witness :
    (Close envOtherErr svr0).1 = envOtherErr.transportCloseErr :=
  (close_outcome_trichotomy envOtherErr svr0 (by decide)).2.2 (by decide)

/-- The log trace of `Close` is exactly its one info entry naming the
configured timeout. -/
theorem close_logs (env : Env) (svr : GracefulServer) :
    (Close env svr).2.2 = [LogEntry.infoClosing svr.ShutdownTimeout] := rfl

/-- Claim C1: every run of the signal-watch body calls `Close` (its info
entry appears in the trace); it escalates to the hard server close exactly
when `Close` returns the DeadlineExceeded sentinel, in which case it warns
naming the configured timeout; and for any other non-nil error from `Close`
it does not escalate and only logs the shutdown-error warning. -/
theorem watch_escalates_iff_deadline (env : Env) (svr : GracefulServer)
    (sig : Sig) :
    LogEntry.infoClosing svr.ShutdownTimeout ∈ (watchBody env svr sig).logs
    ∧ ((watchBody env svr sig).forced = true
        ↔ (Close env svr).1 = some GoError.deadlineExceeded)
    ∧ ((Close env svr).1 = some GoError.deadlineExceeded
        → LogEntry.warnForcing GoError.deadlineExceeded svr.ShutdownTimeout
            ∈ (watchBody env svr sig).logs)
    ∧ (∀ e, (Close env svr).1 = some e → e ≠ GoError.deadlineExceeded →
        (watchBody env svr sig).forced = false
        ∧ LogEntry.warnShutdownError e ∈ (watchBody env svr sig).logs) := by
  by_cases h : (Close env svr).1 = some GoError.deadlineExceeded
  · refine ⟨?_, ?_, ?_, ?_⟩
    · cases hc : env.hardCloseErr <;>
        simp [watchBody, close_logs, h, hc]
    · simp [watchBody, h]
    · intro _
      cases hc : env.hardCloseErr <;>
        simp [watchBody, close_logs, h, hc]
    · intro e he hne
      rw [h] at he
      exact absurd (Option.some.inj he).symm hne
  · refine ⟨?_, ?_, ?_, ?_⟩
    · rcases hs : (Close env svr).1 with _ | e
      · simp [watchBody, close_logs, hs]
      · rw [hs] at h
        have hne : e ≠ GoError.deadlineExceeded := by
          intro hq
          exact h (by rw [hq])
        simp [watchBody, close_logs, hs, hne]
    · simp [watchBody, h]
    · intro hc
      exact absurd hc h
    · intro e he hne
      simp [watchBody, close_logs, he, hne]

/-- Witness for `watch_escalates_iff_deadline` in an environment where
`Close` surfaces a transport error other than the sentinel: the watcher does
not escalate and logs the shutdown-error warning. -/
theorem watch_escalates_iff_deadline_witness :
    (watchBody envOtherErr svr0 Sig.sigint).forced = false
    ∧ LogEntry.warnShutdownError
          (GoError.opError "use of closed network connection")
        ∈ (watchBody envOtherErr svr0 Sig.sigint).logs :=
  (watch_escalates_iff_deadline envOtherErr svr0 Sig.sigint).2.2.2
    (GoError.opError "use of closed network connection") rfl (by decide)

/-- Claim C7: the watcher consumes at most one signal per coordinator
lifetime — with no signal ever delivered it stays blocked and runs nothing;
with a signal stream it consumes exactly the first signal, runs exactly one
shutdown sequence (one `Close` entry in its log trace) and terminates,
leaving every later signal unread. -/
theorem watcher_consumes_one_signal (env : Env) (svr : GracefulServer) :
    listenForShutdownSignal env svr [] = none
    ∧ ∀ sig rest,
        listenForShutdownSignal env svr (sig :: rest)
          = some (watchBody env svr sig, rest)
        ∧ ((watchBody env svr sig).logs.filter LogEntry.isClosing).length
            = 1 := by
  refine ⟨rfl, ?_⟩
  intro sig rest
  refine ⟨rfl, ?_⟩
  by_cases h : (Close env svr).1 = some GoError.deadlineExceeded
  · cases hc : env.hardCloseErr <;>
      simp [watchBody, close_logs, h, hc, LogEntry.isClosing]
  · rcases hs : (Close env svr).1 with _ | e
    · simp [watchBody, close_logs, hs, LogEntry.isClosing]
    · rw [hs] at h
      have hne : e ≠ GoError.deadlineExceeded := by
        intro hq
        exact h (by rw [hq])
      simp [watchBody, close_logs, hs, hne, LogEntry.isClosing]

end Graceful
